import Mathlib

/-!
Verification of the Spinify motor/sync core against its specification.

The definitions below are a shallow embedding of the Python sources:
`spinify/core/motor_service.py`, `spinify/core/playback_sync.py` and
`spinify/core/nfc_service.py`.  Machine floats are modelled as rationals,
stateful methods as explicit state-passing functions, fallible external
calls as `Option`/`Except` values supplied through an environment record.
-/

namespace Spinify

/-! ## Configuration (`spinify/config.py`) -/

def STEPS_PER_REV : Int := 4096

def TONE_ARM_STEPS_PER_REV : Int := 512

def TONE_ARM_MAX_STEPS : Int := 512

/-- Modelled from the spec: `TURNTABLE_TARGET_STEPS_PER_SEC` is imported by
`motor_service.py` and `button_service.py` but is not defined in the
configuration file present in the sources.  The spec lists `target_rpm`
(default 33.33) among the recognized configuration options and describes the
platter target as an angular speed in steps/sec, derived from rpm as
`rpm * steps_per_rev / 60`. -/
def TURNTABLE_TARGET_STEPS_PER_SEC : ℚ := (3333 / 100) * (4096 : ℚ) / 60

/-! ## Python numeric helpers -/

/-- Python `int()` applied to a real value: truncation toward zero. -/
def ratTruncToInt (q : ℚ) : Int := if 0 ≤ q then ⌊q⌋ else ⌈q⌉

/-- Python 3 `round()` to an integer: round-half-to-even (banker's rounding). -/
def pythonRound (q : ℚ) : Int :=
  if q - ⌊q⌋ < 1 / 2 then ⌊q⌋
  else if q - ⌊q⌋ > 1 / 2 then ⌊q⌋ + 1
  else if ⌊q⌋ % 2 = 0 then ⌊q⌋ else ⌊q⌋ + 1

/-! ## Motor service state (`spinify/core/motor_service.py`, `MotorService.__init__`) -/

structure MotorState where
  tone_arm_steps : Int
  tone_arm_sequence_index : Int
  turntable_spinning : Bool
  turntable_direction : Int
  turntable_current_speed : ℚ
  turntable_target_speed_steps_per_sec : ℚ
  turntable_sequence_index : Int
  turntable_stop_requested : Bool
deriving Repr, DecidableEq

/-- Fresh `MotorService` state as set up by `__init__`. -/
def MotorState.init : MotorState :=
  { tone_arm_steps := 0
    tone_arm_sequence_index := 0
    turntable_spinning := false
    turntable_direction := 1
    turntable_current_speed := 0
    turntable_target_speed_steps_per_sec := 0
    turntable_sequence_index := 0
    turntable_stop_requested := false }

/-! ## Tone-arm driver -/

structure ToneArmPosition where
  steps_from_home : Int
  total_steps_per_rev : Int
  current_angle_deg : ℚ
deriving Repr, DecidableEq

/-- `MotorService.get_tone_arm_position`: the internal counter is inverted so
that callers see positive steps toward the end of the record. -/
def get_tone_arm_position (s : MotorState) : ToneArmPosition :=
  let steps := -s.tone_arm_steps
  { steps_from_home := steps
    total_steps_per_rev := TONE_ARM_STEPS_PER_REV
    current_angle_deg := ((steps : ℚ) / (TONE_ARM_STEPS_PER_REV : ℚ)) * 360 }

/-- `MotorService._step_tone_arm`: one half-step; updates the logical step
counter unless called from Settings calibration, and always advances the
half-step sequence index modulo 8. -/
def step_tone_arm (s : MotorState) (direction : Int) (update_steps : Bool) : MotorState :=
  let s := if update_steps then { s with tone_arm_steps := s.tone_arm_steps + direction } else s
  { s with tone_arm_sequence_index := (s.tone_arm_sequence_index + direction) % 8 }

/-- The stepping loop at the end of `MotorService.move_tone_arm`: issue `n`
single half-steps in the given direction.  The per-step sleep schedule
(trapezoidal ramp) affects timing only, not state, and is not modelled. -/
def move_tone_arm_loop (s : MotorState) (direction : Int) (update_steps : Bool) :
    Nat → MotorState
  | 0 => s
  | n + 1 => move_tone_arm_loop (step_tone_arm s direction update_steps) direction update_steps n

/-- `MotorService.move_tone_arm`.  Returns the new state together with the
number of physical half-steps issued.  `steps` is in external
steps-from-home coordinates; the internal counter is inverted. -/
def move_tone_arm (s : MotorState) (steps : Int) (absolute : Bool)
    (from_settings : Bool) : MotorState × Nat :=
  let update_steps := !from_settings
  let target_ext := if absolute then steps else -s.tone_arm_steps + steps
  let target := max (-TONE_ARM_MAX_STEPS) (min TONE_ARM_MAX_STEPS (-target_ext))
  let delta := target - s.tone_arm_steps
  if delta = 0 ∧ from_settings = false then (s, 0)
  else if from_settings then
    let steps_to_move := steps.natAbs
    let direction : Int := if steps > 0 then 1 else -1
    if steps_to_move = 0 then (s, 0)
    else (move_tone_arm_loop s direction update_steps steps_to_move, steps_to_move)
  else
    let direction : Int := if delta > 0 then 1 else -1
    let steps_to_move := delta.natAbs
    (move_tone_arm_loop s direction update_steps steps_to_move, steps_to_move)

/-- `MotorService.move_tone_arm_to_angle`. -/
def move_tone_arm_to_angle (s : MotorState) (angle_deg : ℚ) : MotorState × Nat :=
  let steps := ratTruncToInt (angle_deg / 360 * (TONE_ARM_STEPS_PER_REV : ℚ))
  let steps := max (-TONE_ARM_MAX_STEPS) (min TONE_ARM_MAX_STEPS steps)
  move_tone_arm s steps true false

/-- The calibrated start-of-record bound used by `sync_tone_arm_to_fraction`;
`TONE_ARM_RECORD_START_STEPS` defaults to 0 when unset. -/
def record_start_step (record_start_steps : Option Int) : Int :=
  match record_start_steps with
  | some v => v
  | none => 0

/-- The calibrated end-of-record bound used by `sync_tone_arm_to_fraction`;
`TONE_ARM_RECORD_END_STEPS` defaults to `TONE_ARM_MAX_STEPS` when unset. -/
def record_end_step (record_end_steps : Option Int) : Int :=
  match record_end_steps with
  | some v => v
  | none => TONE_ARM_MAX_STEPS

/-- `MotorService.sync_tone_arm_to_fraction`.  Modelled from the spec:
`TONE_ARM_RECORD_START_STEPS` and `TONE_ARM_RECORD_END_STEPS` are optional
calibration values imported from configuration but absent from the
configuration file in the sources; the spec describes them as the calibrated
playable arc, each independently defaulting to 0 / `MAX_STEPS` when
uncalibrated, so they are taken here as `Option Int` parameters. -/
def sync_tone_arm_to_fraction (record_start_steps record_end_steps : Option Int)
    (s : MotorState) (fraction : ℚ) : MotorState × Nat :=
  let f := max 0 (min 1 fraction)
  let start_step := record_start_step record_start_steps
  let end_step := record_end_step record_end_steps
  let target_steps := pythonRound ((start_step : ℚ) + f * ((end_step : ℚ) - (start_step : ℚ)))
  let target_steps := max (-TONE_ARM_MAX_STEPS) (min TONE_ARM_MAX_STEPS target_steps)
  move_tone_arm s target_steps true false

/-! ## Platter driver -/

structure SpinState where
  is_spinning : Bool
  direction : Int
  current_speed_steps_per_sec : ℚ
  target_speed_steps_per_sec : ℚ
deriving Repr, DecidableEq

/-- `MotorService.get_turntable_state`. -/
def get_turntable_state (s : MotorState) : SpinState :=
  { is_spinning := s.turntable_spinning
    direction := s.turntable_direction
    current_speed_steps_per_sec := s.turntable_current_speed
    target_speed_steps_per_sec := s.turntable_target_speed_steps_per_sec }

/-- `MotorService._rpm_to_steps_per_sec`. -/
def rpm_to_steps_per_sec (rpm : ℚ) : ℚ := rpm * (STEPS_PER_REV : ℚ) / 60

/-- `MotorService.turntable_start`.  Note: both assignments to
`_turntable_direction` in the source write the literal `1`; the `direction`
argument is not consulted.  When not already spinning, the source sets
`_turntable_current_speed = target_speed` with the comment
"instant speed, skip ramp". -/
def turntable_start (s : MotorState) (direction : Int) (speed_rpm : Option ℚ) : MotorState :=
  let target_speed :=
    match speed_rpm with
    | some rpm => rpm_to_steps_per_sec rpm
    | none => TURNTABLE_TARGET_STEPS_PER_SEC
  if s.turntable_spinning then
    { s with turntable_direction := 1
             turntable_target_speed_steps_per_sec := target_speed }
  else
    { s with turntable_stop_requested := false
             turntable_direction := 1
             turntable_target_speed_steps_per_sec := target_speed
             turntable_current_speed := target_speed
             turntable_spinning := true }

/-- `MotorService.turntable_stop`. -/
def turntable_stop (s : MotorState) : MotorState :=
  { s with turntable_stop_requested := true
           turntable_target_speed_steps_per_sec := 0 }

/-- The fixed angular acceleration of `MotorService._turntable_loop` (steps/s²). -/
def turntable_accel : ℚ := 40

/-- The control-loop tick length of `MotorService._turntable_loop` (seconds). -/
def turntable_dt : ℚ := 1 / 50

/-- One iteration of the ramp-up phase of `MotorService._turntable_loop`:
`current_speed = min(target, current_speed + accel * dt)`. -/
def turntable_ramp_up_step (current target : ℚ) : ℚ :=
  min target (current + turntable_accel * turntable_dt)

/-! ## Record mappings (`spinify/models/record.py`, `spinify/core/record_store.py`) -/

structure RecordMapping where
  record_id : String
  nfc_uid : String
  name : String
  spotify_uri : String
  type : String
  created_at : String
deriving Repr, DecidableEq

/-- Python's `str.lower()` as used on tag UIDs (hex strings, so ASCII case
folding per character suffices). -/
def py_lower (s : String) : String := String.mk (s.data.map Char.toLower)

/-- `record_store.get_mapping_by_uid`: first mapping whose UID matches
case-insensitively. -/
def get_mapping_by_uid (mappings : List RecordMapping) (nfc_uid : String) :
    Option RecordMapping :=
  mappings.find? (fun m => py_lower m.nfc_uid == py_lower nfc_uid)

/-! ## NFC presence tracker (`spinify/core/nfc_service.py`) -/

/-- `_NFC_GRACE_SEC`: keep reporting the last seen UID for this long after the
reader misses the tag. -/
def NFC_GRACE_SEC : ℚ := 1

structure NFCState where
  current_uid : Option String
  last_seen_time : Option ℚ
deriving Repr, DecidableEq

structure PlacedRecord where
  nfc_uid : String
  record_id : Option String
  mapping : Option RecordMapping
deriving Repr, DecidableEq

/-- `NFCService.get_current`: currently placed record (UID plus mapping when
known), or `none` when no UID is currently tracked. -/
def get_current (s : NFCState) (get_mapping : String → Option RecordMapping) :
    Option PlacedRecord :=
  match s.current_uid with
  | none => none
  | some uid =>
    let mapping := get_mapping uid
    some { nfc_uid := uid
           record_id := match mapping with | some m => some m.record_id | none => none
           mapping := mapping }

/-- One iteration of the `_poll_loop` body in `NFCService.start_polling`:
on a successful read the UID and timestamp are stored; on a missed read the
UID is cleared only when both are set and `now - last_seen > _NFC_GRACE_SEC`,
otherwise the state is left unchanged. -/
def poll_iteration (s : NFCState) (scan_result : Option String) (now : ℚ) : NFCState :=
  match scan_result with
  | some uid => { current_uid := some uid, last_seen_time := some now }
  | none =>
    match s.current_uid, s.last_seen_time with
    | some _, some t =>
      if now - t > NFC_GRACE_SEC then { current_uid := none, last_seen_time := none }
      else s
    | _, _ => s

/-! ## Sync engine (`spinify/core/playback_sync.py`) -/

/-- Motor commands the sync engine can issue, at the granularity of the
`MotorService` calls made by `playback_sync.py`. -/
inductive MotorCmd where
  | turntableStart (direction : Int)
  | turntableStop
  | moveToneArmToAngle (angle : ℚ)
  | syncToneArmToFraction (fraction : ℚ)
deriving Repr, DecidableEq

/-- `_stop_platter_and_home`: stop turntable and move tone-arm to home. -/
def stop_platter_and_home_cmds : List MotorCmd :=
  [MotorCmd.turntableStop, MotorCmd.moveToneArmToAngle 0]

/-- The playback snapshot fields read by the sync engine, after the source's
dict normalisation (`bool(pb.get(..))`, `int(.. or 0)`, missing strings as
empty). -/
structure PlaybackSnapshot where
  is_playing : Bool
  context_uri : String
  track_uri : String
  progress_ms : Int
  duration_ms : Int
deriving Repr, DecidableEq

/-- The result of `spotify_client.get_context_track_position` when available. -/
structure ContextTrackPosition where
  total_tracks : Int
  track_index : Int
deriving Repr, DecidableEq

/-- The environment the sync engine interrogates: the optional streaming
client, the snapshot fetch outcome (`Except.error` when the fetch raised,
`Except.ok none` when it returned an empty/absent snapshot), the two guard
windows, the presence tracker's current record, the mapping store's contents
and the external context-position lookup result. -/
structure SyncEnv where
  spotify_client_present : Bool
  current_playback : Except Unit (Option PlaybackSnapshot)
  within_cooldown : Bool
  rotation_scan_active : Bool
  placed : Option PlacedRecord
  mappings : List RecordMapping
  context_track_position : Option ContextTrackPosition
deriving Repr

/-- The dict returned by `sync_tone_arm_and_platter_to_playback`: `ok`,
`reason` on failure, and `fraction`/`track_index`/`total_tracks` on success. -/
structure SyncResult where
  ok : Bool
  reason : Option String
  fraction : Option ℚ
  track_index : Option Int
  total_tracks : Option Int
deriving Repr, DecidableEq

def syncFail (reason : String) : SyncResult :=
  { ok := false, reason := some reason, fraction := none
    track_index := none, total_tracks := none }

def reason_cooldown : String := "cooldown"
def reason_no_spotify : String := "no_spotify"
def reason_playback_error : String := "playback_error"
def reason_no_playback : String := "no_playback"
def reason_paused : String := "paused"
def reason_no_nfc : String := "no_nfc"
def reason_no_mapping : String := "no_mapping"
def reason_context_mismatch : String := "context_mismatch"
def reason_ctx_position_unavailable : String := "context_position_unavailable"
def reason_rotation_scan : String := "rotation_scan"

/-- `sync_tone_arm_and_platter_to_playback`, returning the result dict and the
list of motor commands issued, in order. -/
def sync_tone_arm_and_platter_to_playback (env : SyncEnv) : SyncResult × List MotorCmd :=
  if env.spotify_client_present = false then
    if env.within_cooldown then (syncFail reason_cooldown, [])
    else (syncFail reason_no_spotify, stop_platter_and_home_cmds)
  else
    match env.current_playback with
    | Except.error _ =>
      if env.within_cooldown then (syncFail reason_cooldown, [])
      else (syncFail reason_playback_error, stop_platter_and_home_cmds)
    | Except.ok none => (syncFail reason_no_playback, [])
    | Except.ok (some pb) =>
      if pb.is_playing = false then
        if env.within_cooldown then (syncFail reason_cooldown, [])
        else (syncFail reason_paused, stop_platter_and_home_cmds)
      else
        match env.placed with
        | none => (syncFail reason_no_nfc, [])
        | some placed =>
          match get_mapping_by_uid env.mappings placed.nfc_uid with
          | none => (syncFail reason_no_mapping, [])
          | some mapping =>
            if mapping.spotify_uri = "" then (syncFail reason_no_mapping, [])
            else if pb.context_uri = "" ∨ pb.context_uri ≠ mapping.spotify_uri then
              (syncFail reason_context_mismatch, [])
            else
              match env.context_track_position with
              | none => (syncFail reason_ctx_position_unavailable, [])
              | some ctx_pos =>
                if env.rotation_scan_active then (syncFail reason_rotation_scan, [])
                else
                  let total_tracks :=
                    max 1 (if ctx_pos.total_tracks = 0 then 1 else ctx_pos.total_tracks)
                  let track_index := max 0 ctx_pos.track_index
                  let track_progress : ℚ :=
                    if 0 < pb.duration_ms then
                      max 0 (min 1 ((pb.progress_ms : ℚ) / (pb.duration_ms : ℚ)))
                    else 0
                  let playlist_fraction :=
                    max 0 (min 1 (((track_index : ℚ) + track_progress) / (total_tracks : ℚ)))
                  ({ ok := true, reason := none, fraction := some playlist_fraction
                     track_index := some track_index, total_tracks := some total_tracks },
                   [MotorCmd.turntableStart (-1),
                    MotorCmd.syncToneArmToFraction playlist_fraction])

/-- The fraction formula exactly as the spec words it: `clamp((track_index +
track_progress)/total_tracks, 0, 1)` where `track_progress =
clamp(position_ms/duration_ms, 0, 1)` when the duration is known and positive,
and 0 otherwise. -/
def spec_playlist_fraction (position_ms duration_ms track_index total_tracks : Int) : ℚ :=
  let track_progress : ℚ :=
    if 0 < duration_ms then max 0 (min 1 ((position_ms : ℚ) / (duration_ms : ℚ)))
    else 0
  max 0 (min 1 (((track_index : ℚ) + track_progress) / (total_tracks : ℚ)))

/-! ## Helper lemmas -/

theorem step_tone_arm_steps (s : MotorState) (d : Int) :
    (step_tone_arm s d true).tone_arm_steps = s.tone_arm_steps + d := rfl

theorem move_tone_arm_loop_steps (d : Int) :
    ∀ (n : Nat) (s : MotorState),
      (move_tone_arm_loop s d true n).tone_arm_steps = s.tone_arm_steps + d * n
  | 0, s => by simp [move_tone_arm_loop]
  | n + 1, s => by
    rw [move_tone_arm_loop, move_tone_arm_loop_steps d n]
    simp only [step_tone_arm_steps]
    push_cast
    ring

theorem get_tone_arm_position_steps (s : MotorState) :
    (get_tone_arm_position s).steps_from_home = -s.tone_arm_steps := rfl

/-- Full characterisation of an absolute, non-calibration `move_tone_arm`
call: physical steps issued, final position, and the nothing-to-do fast
path. -/
theorem move_tone_arm_absolute_spec (s : MotorState) (t : Int) :
    (move_tone_arm s t true false).2
        = (max (-TONE_ARM_MAX_STEPS) (min TONE_ARM_MAX_STEPS t)
            - (get_tone_arm_position s).steps_from_home).natAbs
    ∧ (get_tone_arm_position (move_tone_arm s t true false).1).steps_from_home
        = max (-TONE_ARM_MAX_STEPS) (min TONE_ARM_MAX_STEPS t)
    ∧ (max (-TONE_ARM_MAX_STEPS) (min TONE_ARM_MAX_STEPS t)
          = (get_tone_arm_position s).steps_from_home →
        (move_tone_arm s t true false).1 = s ∧ (move_tone_arm s t true false).2 = 0) := by
  have key : move_tone_arm s t true false =
      if max (-TONE_ARM_MAX_STEPS) (min TONE_ARM_MAX_STEPS (-t)) - s.tone_arm_steps = 0 then
        (s, 0)
      else
        (move_tone_arm_loop s
          (if max (-TONE_ARM_MAX_STEPS) (min TONE_ARM_MAX_STEPS (-t)) - s.tone_arm_steps > 0
            then 1 else -1)
          true
          (max (-TONE_ARM_MAX_STEPS) (min TONE_ARM_MAX_STEPS (-t)) - s.tone_arm_steps).natAbs,
         (max (-TONE_ARM_MAX_STEPS) (min TONE_ARM_MAX_STEPS (-t)) - s.tone_arm_steps).natAbs) := by
    simp [move_tone_arm]
  have hclamp : max (-TONE_ARM_MAX_STEPS) (min TONE_ARM_MAX_STEPS (-t))
      = -(max (-TONE_ARM_MAX_STEPS) (min TONE_ARM_MAX_STEPS t)) := by
    simp only [TONE_ARM_MAX_STEPS]
    omega
  rw [key]
  simp only [get_tone_arm_position_steps]
  by_cases hd :
      max (-TONE_ARM_MAX_STEPS) (min TONE_ARM_MAX_STEPS (-t)) - s.tone_arm_steps = 0
  · rw [if_pos hd]
    dsimp only
    refine ⟨by omega, by omega, fun _ => ⟨rfl, rfl⟩⟩
  · rw [if_neg hd]
    dsimp only
    have hsteps : (move_tone_arm_loop s
        (if max (-TONE_ARM_MAX_STEPS) (min TONE_ARM_MAX_STEPS (-t)) - s.tone_arm_steps > 0
          then 1 else -1)
        true
        (max (-TONE_ARM_MAX_STEPS) (min TONE_ARM_MAX_STEPS (-t))
          - s.tone_arm_steps).natAbs).tone_arm_steps
        = max (-TONE_ARM_MAX_STEPS) (min TONE_ARM_MAX_STEPS (-t)) := by
      rw [move_tone_arm_loop_steps]
      by_cases hpos :
          max (-TONE_ARM_MAX_STEPS) (min TONE_ARM_MAX_STEPS (-t)) - s.tone_arm_steps > 0
      · rw [if_pos hpos]
        omega
      · rw [if_neg hpos]
        omega
    refine ⟨by omega, ?_, fun h => absurd (by omega) hd⟩
    simp only [hsteps]
    omega
theorem pythonRound_eq_floor_or_succ (q : ℚ) :
    pythonRound q = ⌊q⌋ ∨ pythonRound q = ⌊q⌋ + 1 := by
  unfold pythonRound
  split_ifs <;> simp

theorem floor_le_pythonRound (q : ℚ) : ⌊q⌋ ≤ pythonRound q := by
  rcases pythonRound_eq_floor_or_succ q with h | h <;> omega

theorem pythonRound_le_floor_add_one (q : ℚ) : pythonRound q ≤ ⌊q⌋ + 1 := by
  rcases pythonRound_eq_floor_or_succ q with h | h <;> omega

theorem le_pythonRound_of_le {a : Int} {q : ℚ} (h : (a : ℚ) ≤ q) : a ≤ pythonRound q := by
  have h1 : a ≤ ⌊q⌋ := Int.le_floor.mpr h
  have h2 := floor_le_pythonRound q
  omega

theorem pythonRound_le_of_le {q : ℚ} {b : Int} (h : q ≤ (b : ℚ)) : pythonRound q ≤ b := by
  have hfb : ⌊q⌋ ≤ b := by
    have h1 := Int.floor_le_floor h
    simpa using h1
  have hfq := Int.floor_le q
  unfold pythonRound
  split_ifs with h1 h2 h3
  · exact hfb
  · have hflt : (⌊q⌋ : ℚ) < (b : ℚ) := by linarith
    have : ⌊q⌋ < b := by exact_mod_cast hflt
    omega
  · exact hfb
  · have hge : (1 : ℚ) / 2 ≤ q - ⌊q⌋ := by linarith
    have hflt : (⌊q⌋ : ℚ) < (b : ℚ) := by linarith
    have : ⌊q⌋ < b := by exact_mod_cast hflt
    omega

theorem pythonRound_mono {q1 q2 : ℚ} (h : q1 ≤ q2) : pythonRound q1 ≤ pythonRound q2 := by
  rcases lt_or_eq_of_le (Int.floor_le_floor h) with hf | hf
  · calc pythonRound q1 ≤ ⌊q1⌋ + 1 := pythonRound_le_floor_add_one q1
      _ ≤ ⌊q2⌋ := by omega
      _ ≤ pythonRound q2 := floor_le_pythonRound q2
  · unfold pythonRound
    rw [← hf]
    split_ifs <;> first | omega | linarith

/-- The target step count computed by `sync_tone_arm_to_fraction` before the
final `move_tone_arm` call. -/
def fraction_target_steps (record_start_steps record_end_steps : Option Int)
    (fraction : ℚ) : Int :=
  let f := max 0 (min 1 fraction)
  let start_step := record_start_step record_start_steps
  let end_step := record_end_step record_end_steps
  let target_steps := pythonRound ((start_step : ℚ) + f * ((end_step : ℚ) - (start_step : ℚ)))
  max (-TONE_ARM_MAX_STEPS) (min TONE_ARM_MAX_STEPS target_steps)

theorem sync_tone_arm_to_fraction_eq (rss res : Option Int) (s : MotorState) (fr : ℚ) :
    sync_tone_arm_to_fraction rss res s fr
      = move_tone_arm s (fraction_target_steps rss res fr) true false := rfl

theorem fraction_target_steps_bounds (rss res : Option Int) (fr : ℚ)
    (hse : record_start_step rss ≤ record_end_step res)
    (hsM : record_start_step rss ≤ TONE_ARM_MAX_STEPS)
    (heM : -TONE_ARM_MAX_STEPS ≤ record_end_step res) :
    record_start_step rss ≤ fraction_target_steps rss res fr
      ∧ fraction_target_steps rss res fr ≤ record_end_step res := by
  have hf0 : (0 : ℚ) ≤ max 0 (min 1 fr) := le_max_left 0 _
  have hf1 : max 0 (min 1 fr) ≤ 1 := by
    rcases le_total (0 : ℚ) (min 1 fr) with h | h
    · rw [max_eq_right h]
      exact min_le_left 1 fr
    · rw [max_eq_left h]
      norm_num
  have hba : (0 : ℚ) ≤ (record_end_step res : ℚ) - (record_start_step rss : ℚ) := by
    rw [sub_nonneg]
    exact_mod_cast hse
  have hxlo : (record_start_step rss : ℚ)
      ≤ (record_start_step rss : ℚ)
        + max 0 (min 1 fr) * ((record_end_step res : ℚ) - (record_start_step rss : ℚ)) :=
    le_add_of_nonneg_right (mul_nonneg hf0 hba)
  have hxhi : (record_start_step rss : ℚ)
        + max 0 (min 1 fr) * ((record_end_step res : ℚ) - (record_start_step rss : ℚ))
      ≤ (record_end_step res : ℚ) := by
    nlinarith
  have hrlo := le_pythonRound_of_le hxlo
  have hrhi := pythonRound_le_of_le hxhi
  simp only [fraction_target_steps]
  omega

theorem fraction_target_steps_mono (rss res : Option Int) (f1 f2 : ℚ)
    (hse : record_start_step rss ≤ record_end_step res) (h12 : f1 ≤ f2) :
    fraction_target_steps rss res f1 ≤ fraction_target_steps rss res f2 := by
  have hfc : max 0 (min 1 f1) ≤ max 0 (min 1 f2) :=
    max_le_max le_rfl (min_le_min le_rfl h12)
  have hba : (0 : ℚ) ≤ (record_end_step res : ℚ) - (record_start_step rss : ℚ) := by
    rw [sub_nonneg]
    exact_mod_cast hse
  have hx : (record_start_step rss : ℚ)
        + max 0 (min 1 f1) * ((record_end_step res : ℚ) - (record_start_step rss : ℚ))
      ≤ (record_start_step rss : ℚ)
        + max 0 (min 1 f2) * ((record_end_step res : ℚ) - (record_start_step rss : ℚ)) := by
    have := mul_le_mul_of_nonneg_right hfc hba
    linarith
  have hr := pythonRound_mono hx
  simp only [fraction_target_steps]
  omega

/-- Sample data for concrete witnesses. -/
def sample_uid : String := "a1b2c3d4"

def sample_uri : String := "spotify:album:demo"

def sample_track_uri : String := "spotify:track:demo1"

def sample_mapping : RecordMapping :=
  { record_id := "rid-1"
    nfc_uid := "a1b2c3d4"
    name := "Demo Album"
    spotify_uri := "spotify:album:demo"
    type := "album"
    created_at := "2024-01-01T00:00:00Z" }

def sample_placed : PlacedRecord :=
  { nfc_uid := "a1b2c3d4", record_id := none, mapping := none }

/-! ## Claim theorems -/

/-- C6: for every absolute, non-calibration tone-arm move to target `t`, the
driver issues exactly `|clamp(t, ±MAX) - current_steps_from_home|` physical
steps, afterwards `steps_from_home` equals `t` clamped to
`±TONE_ARM_MAX_STEPS`, and when the clamped target equals the current
position the call returns immediately having issued zero steps. -/
theorem move_tone_arm_absolute_steps_and_position (s : MotorState) (t : Int) :
    (move_tone_arm s t true false).2
        = (max (-TONE_ARM_MAX_STEPS) (min TONE_ARM_MAX_STEPS t)
            - (get_tone_arm_position s).steps_from_home).natAbs
    ∧ (get_tone_arm_position (move_tone_arm s t true false).1).steps_from_home
        = max (-TONE_ARM_MAX_STEPS) (min TONE_ARM_MAX_STEPS t)
    ∧ (max (-TONE_ARM_MAX_STEPS) (min TONE_ARM_MAX_STEPS t)
          = (get_tone_arm_position s).steps_from_home →
        (move_tone_arm s t true false).1 = s ∧ (move_tone_arm s t true false).2 = 0) :=
  move_tone_arm_absolute_spec s t

theorem move_tone_arm_absolute_steps_and_position_witness :
    (move_tone_arm MotorState.init 300 true false).2
        = (max (-TONE_ARM_MAX_STEPS) (min TONE_ARM_MAX_STEPS 300)
            - (get_tone_arm_position MotorState.init).steps_from_home).natAbs
    ∧ (get_tone_arm_position (move_tone_arm MotorState.init 300 true false).1).steps_from_home
        = max (-TONE_ARM_MAX_STEPS) (min TONE_ARM_MAX_STEPS 300)
    ∧ ((move_tone_arm MotorState.init 0 true false).1 = MotorState.init
        ∧ (move_tone_arm MotorState.init 0 true false).2 = 0) :=
  ⟨(move_tone_arm_absolute_steps_and_position MotorState.init 300).1,
    (move_tone_arm_absolute_steps_and_position MotorState.init 300).2.1,
    (move_tone_arm_absolute_steps_and_position MotorState.init 0).2.2 (by decide)⟩

/-- C7: for all `f ∈ [0,1]`, `sync_tone_arm_to_fraction f` leaves
`steps_from_home` within the calibrated bound `[start_step, end_step]`
(defaulting to `0` / `TONE_ARM_MAX_STEPS` when uncalibrated), and the
resulting step position is monotonically non-decreasing in `f`; stated under
the sane-calibration side conditions `start ≤ end`, `start ≤ MAX` and
`-MAX ≤ end`. -/
theorem sync_tone_arm_to_fraction_bounds_and_mono
    (rss res : Option Int) (s : MotorState) (f1 f2 : ℚ)
    (hse : record_start_step rss ≤ record_end_step res)
    (hsM : record_start_step rss ≤ TONE_ARM_MAX_STEPS)
    (heM : -TONE_ARM_MAX_STEPS ≤ record_end_step res)
    (hf0 : 0 ≤ f1) (h12 : f1 ≤ f2) (hf1 : f2 ≤ 1) :
    (record_start_step rss
        ≤ (get_tone_arm_position (sync_tone_arm_to_fraction rss res s f1).1).steps_from_home
      ∧ (get_tone_arm_position (sync_tone_arm_to_fraction rss res s f1).1).steps_from_home
        ≤ record_end_step res)
    ∧ (get_tone_arm_position (sync_tone_arm_to_fraction rss res s f1).1).steps_from_home
        ≤ (get_tone_arm_position (sync_tone_arm_to_fraction rss res s f2).1).steps_from_home := by
  have hM : (0 : Int) ≤ TONE_ARM_MAX_STEPS := by norm_num [TONE_ARM_MAX_STEPS]
  have hfin : ∀ f : ℚ,
      (get_tone_arm_position (sync_tone_arm_to_fraction rss res s f).1).steps_from_home
        = fraction_target_steps rss res f := by
    intro f
    rw [sync_tone_arm_to_fraction_eq]
    rw [(move_tone_arm_absolute_spec s (fraction_target_steps rss res f)).2.1]
    have hin : -TONE_ARM_MAX_STEPS ≤ fraction_target_steps rss res f
        ∧ fraction_target_steps rss res f ≤ TONE_ARM_MAX_STEPS := by
      simp only [fraction_target_steps]
      omega
    omega
  rw [hfin f1, hfin f2]
  exact ⟨fraction_target_steps_bounds rss res f1 hse hsM heM,
    fraction_target_steps_mono rss res f1 f2 hse h12⟩

theorem sync_tone_arm_to_fraction_bounds_and_mono_witness :
    (record_start_step none ≤ record_end_step none
        ∧ record_start_step none ≤ TONE_ARM_MAX_STEPS
        ∧ -TONE_ARM_MAX_STEPS ≤ record_end_step none
        ∧ (0 : ℚ) ≤ 1 / 4 ∧ (1 : ℚ) / 4 ≤ 1 / 2 ∧ (1 : ℚ) / 2 ≤ 1)
    ∧ ((record_start_step none
          ≤ (get_tone_arm_position
              (sync_tone_arm_to_fraction none none MotorState.init (1 / 4)).1).steps_from_home
        ∧ (get_tone_arm_position
              (sync_tone_arm_to_fraction none none MotorState.init (1 / 4)).1).steps_from_home
          ≤ record_end_step none)
      ∧ (get_tone_arm_position
            (sync_tone_arm_to_fraction none none MotorState.init (1 / 4)).1).steps_from_home
        ≤ (get_tone_arm_position
            (sync_tone_arm_to_fraction none none MotorState.init (1 / 2)).1).steps_from_home) :=
  ⟨⟨by decide, by decide, by decide, by norm_num, by norm_num, by norm_num⟩,
    sync_tone_arm_to_fraction_bounds_and_mono none none MotorState.init (1 / 4) (1 / 2)
      (by decide) (by decide) (by decide) (by norm_num) (by norm_num) (by norm_num)⟩

/-- C4 counterexample: calling `turntable_start` on a platter at rest (current
speed 0) leaves the current speed equal to the full target speed immediately,
before any control-loop iteration, and that jump exceeds `accel * dt` — the
ramp described by the claim does not happen. -/
theorem turntable_start_no_ramp_counterexample :
    MotorState.init.turntable_current_speed = 0
    ∧ (turntable_start MotorState.init 1 none).turntable_current_speed
      = TURNTABLE_TARGET_STEPS_PER_SEC
    ∧ turntable_accel * turntable_dt < TURNTABLE_TARGET_STEPS_PER_SEC := by
  refine ⟨rfl, rfl, ?_⟩
  norm_num [turntable_accel, turntable_dt, TURNTABLE_TARGET_STEPS_PER_SEC]

/-- C4 (amended): when `turntable_start` is called with the platter at rest,
the current speed is set directly to the resolved target speed at call time
(the source comments this "instant speed, skip ramp"), so the control loop's
ramp-up phase is already at its fixed point and performs no gradual
acceleration. -/
theorem turntable_start_from_rest_sets_speed_instantly
    (s : MotorState) (d : Int) (rpm : Option ℚ) (h : s.turntable_spinning = false) :
    (turntable_start s d rpm).turntable_current_speed
      = (turntable_start s d rpm).turntable_target_speed_steps_per_sec
    ∧ turntable_ramp_up_step (turntable_start s d rpm).turntable_current_speed
        (turntable_start s d rpm).turntable_target_speed_steps_per_sec
      = (turntable_start s d rpm).turntable_current_speed := by
  have hmin : ∀ x : ℚ, turntable_ramp_up_step x x = x := by
    intro x
    unfold turntable_ramp_up_step
    rw [min_eq_left]
    norm_num [turntable_accel, turntable_dt]
  constructor
  · simp [turntable_start, h]
  · simp [turntable_start, h, hmin]

theorem turntable_start_from_rest_sets_speed_instantly_witness :
    MotorState.init.turntable_spinning = false
    ∧ ((turntable_start MotorState.init 1 none).turntable_current_speed
        = (turntable_start MotorState.init 1 none).turntable_target_speed_steps_per_sec
      ∧ turntable_ramp_up_step (turntable_start MotorState.init 1 none).turntable_current_speed
          (turntable_start MotorState.init 1 none).turntable_target_speed_steps_per_sec
        = (turntable_start MotorState.init 1 none).turntable_current_speed) :=
  ⟨rfl, turntable_start_from_rest_sets_speed_instantly MotorState.init 1 none rfl⟩

/-- C5 (code evaluation at the failing input): `turntable_start` called with
`direction = -1` — exactly as the sync engine and the rotation scan call it —
leaves the stored spin direction at `1`, both from rest and when already
spinning: the source assigns the literal `1` in both branches and ignores the
argument. -/
theorem turntable_start_ignores_direction :
    (get_turntable_state (turntable_start MotorState.init (-1) none)).direction = 1
    ∧ (get_turntable_state
        (turntable_start (turntable_start MotorState.init (-1) none) (-1) none)).direction
      = 1 :=
  ⟨rfl, rfl⟩

/-- C1: when the snapshot is fetched successfully and reports
`is_playing=false`, the sync engine outside the cooldown window issues exactly
one platter-stop and one home-arm (angle 0) command and reports `paused`,
while inside the cooldown window it issues no motor command and reports
`cooldown`. -/
theorem sync_paused_stop_or_cooldown (cu tu : String) (pm dm : Int) (rs : Bool)
    (pl : Option PlacedRecord) (maps : List RecordMapping)
    (cpos : Option ContextTrackPosition) :
    (sync_tone_arm_and_platter_to_playback
        ⟨true, Except.ok (some ⟨false, cu, tu, pm, dm⟩), false, rs, pl, maps, cpos⟩
      = (syncFail reason_paused, stop_platter_and_home_cmds)
      ∧ stop_platter_and_home_cmds.count MotorCmd.turntableStop = 1
      ∧ stop_platter_and_home_cmds.count (MotorCmd.moveToneArmToAngle 0) = 1
      ∧ stop_platter_and_home_cmds.length = 2)
    ∧ sync_tone_arm_and_platter_to_playback
        ⟨true, Except.ok (some ⟨false, cu, tu, pm, dm⟩), true, rs, pl, maps, cpos⟩
      = (syncFail reason_cooldown, []) := by
  refine ⟨⟨rfl, ?_, ?_, rfl⟩, rfl⟩ <;> decide

/-- C2 (code evaluation at the failing input): with the rotation-scan window
active, a successfully fetched snapshot with `is_playing=false` outside the
local-start cooldown still makes the sync engine issue the platter-stop and
arm-home commands with reason `paused` — the rotation-scan guard is consulted
only in front of the Ok-branch motor action, after all authoritative-stop
branches. -/
theorem sync_rotation_scan_still_stops_on_paused :
    (⟨true, Except.ok (some ⟨false, "", "", 0, 0⟩), false, true, none, [],
        none⟩ : SyncEnv).rotation_scan_active = true
    ∧ (sync_tone_arm_and_platter_to_playback
        ⟨true, Except.ok (some ⟨false, "", "", 0, 0⟩), false, true, none, [], none⟩).2
      = [MotorCmd.turntableStop, MotorCmd.moveToneArmToAngle 0]
    ∧ (sync_tone_arm_and_platter_to_playback
        ⟨true, Except.ok (some ⟨false, "", "", 0, 0⟩), false, true, none, [], none⟩).1.reason
      = some reason_paused :=
  ⟨rfl, rfl, rfl⟩

/-- C3: when playback is fetched successfully with `is_playing=true` but the
presence tracker reports no record, the sync engine issues no motor command
and reports the transient reason `no_nfc`, for every cooldown/rotation-scan
state and irrespective of any platter state (the branch consults no motor
state at all). -/
theorem sync_no_nfc_transient (cu tu : String) (pm dm : Int) (wc rs : Bool)
    (maps : List RecordMapping) (cpos : Option ContextTrackPosition) :
    sync_tone_arm_and_platter_to_playback
        ⟨true, Except.ok (some ⟨true, cu, tu, pm, dm⟩), wc, rs, none, maps, cpos⟩
      = (syncFail reason_no_nfc, []) :=
  rfl

/-- C10: when the client exists and `current_playback()` returns without
raising but yields an empty/absent snapshot, the sync engine reports the
transient reason `no_playback` and issues no motor command, for every
cooldown state — in particular also outside the cooldown window. -/
theorem sync_no_playback_transient (wc rs : Bool) (pl : Option PlacedRecord)
    (maps : List RecordMapping) (cpos : Option ContextTrackPosition) :
    sync_tone_arm_and_platter_to_playback ⟨true, Except.ok none, wc, rs, pl, maps, cpos⟩
      = (syncFail reason_no_playback, []) :=
  rfl

/-- C9: on every Ok sync outcome the reported fraction equals the spec's
formula `clamp((track_index + track_progress)/total_tracks, 0, 1)` with
`track_progress = clamp(position_ms/duration_ms, 0, 1)` for a positive known
duration and `0` otherwise, and the tone-arm is driven to exactly that
fraction. -/
theorem sync_ok_fraction_formula (cu tu : String) (pm dm : Int) (wc : Bool)
    (pl : PlacedRecord) (maps : List RecordMapping) (ctx : ContextTrackPosition)
    (m : RecordMapping)
    (hm : get_mapping_by_uid maps pl.nfc_uid = some m)
    (hmu : m.spotify_uri ≠ "")
    (hcu : cu ≠ "")
    (hmatch : cu = m.spotify_uri) :
    (sync_tone_arm_and_platter_to_playback
        ⟨true, Except.ok (some ⟨true, cu, tu, pm, dm⟩), wc, false, some pl, maps,
          some ctx⟩).1
      = { ok := true, reason := none
          fraction := some (spec_playlist_fraction pm dm (max 0 ctx.track_index)
            (max 1 (if ctx.total_tracks = 0 then 1 else ctx.total_tracks)))
          track_index := some (max 0 ctx.track_index)
          total_tracks := some (max 1 (if ctx.total_tracks = 0 then 1 else ctx.total_tracks)) }
    ∧ (sync_tone_arm_and_platter_to_playback
        ⟨true, Except.ok (some ⟨true, cu, tu, pm, dm⟩), wc, false, some pl, maps,
          some ctx⟩).2
      = [MotorCmd.turntableStart (-1),
         MotorCmd.syncToneArmToFraction (spec_playlist_fraction pm dm (max 0 ctx.track_index)
           (max 1 (if ctx.total_tracks = 0 then 1 else ctx.total_tracks)))] := by
  have hnotor : ¬(cu = "" ∨ cu ≠ m.spotify_uri) := by
    push_neg
    exact ⟨hcu, hmatch⟩
  constructor <;>
    simp [sync_tone_arm_and_platter_to_playback, hm, hmu, hnotor, spec_playlist_fraction]

theorem sync_ok_fraction_formula_witness :
    get_mapping_by_uid [sample_mapping] sample_placed.nfc_uid = some sample_mapping
    ∧ sample_mapping.spotify_uri ≠ ""
    ∧ sample_uri ≠ ""
    ∧ sample_uri = sample_mapping.spotify_uri
    ∧ (sync_tone_arm_and_platter_to_playback
        ⟨true, Except.ok (some ⟨true, sample_uri, sample_track_uri, 30000, 60000⟩), false,
          false, some sample_placed, [sample_mapping], some ⟨10, 3⟩⟩).1.fraction
      = some (spec_playlist_fraction 30000 60000 (max 0 3)
          (max 1 (if (10 : Int) = 0 then 1 else 10))) := by
  have h := sync_ok_fraction_formula sample_uri sample_track_uri 30000 60000 false
    sample_placed [sample_mapping] ⟨10, 3⟩ sample_mapping (by decide) (by decide)
    (by decide) (by decide)
  exact ⟨by decide, by decide, by decide, by decide, by rw [h.1]⟩

/-- C8: in the presence poll loop, a missed read clears the tracked token only
when the time since the last successful read exceeds `NFC_GRACE_SEC`: within
the grace window the state is unchanged and `get_current` still reports the
previous UID; beyond it the UID is cleared and `get_current` reports
nothing. -/
theorem nfc_missed_poll_grace_window (uid : String) (t now : ℚ)
    (gm : String → Option RecordMapping) :
    (now - t ≤ NFC_GRACE_SEC →
      poll_iteration ⟨some uid, some t⟩ none now = ⟨some uid, some t⟩
      ∧ (get_current (poll_iteration ⟨some uid, some t⟩ none now) gm).map PlacedRecord.nfc_uid
        = some uid)
    ∧ (NFC_GRACE_SEC < now - t →
      poll_iteration ⟨some uid, some t⟩ none now = ⟨none, none⟩
      ∧ get_current (poll_iteration ⟨some uid, some t⟩ none now) gm = none) := by
  constructor
  · intro h
    have hn : ¬(NFC_GRACE_SEC < now - t) := not_lt.mpr h
    simp [poll_iteration, hn, get_current]
  · intro h
    simp [poll_iteration, h, get_current]

theorem nfc_missed_poll_grace_window_witness :
    ((1 : ℚ) / 2 - 0 ≤ NFC_GRACE_SEC
      ∧ poll_iteration ⟨some sample_uid, some 0⟩ none (1 / 2) = ⟨some sample_uid, some 0⟩
      ∧ (get_current (poll_iteration ⟨some sample_uid, some 0⟩ none (1 / 2))
          (fun _ => none)).map PlacedRecord.nfc_uid = some sample_uid)
    ∧ (NFC_GRACE_SEC < (2 : ℚ) - 0
      ∧ poll_iteration ⟨some sample_uid, some 0⟩ none 2 = ⟨none, none⟩
      ∧ get_current (poll_iteration ⟨some sample_uid, some 0⟩ none 2) (fun _ => none)
        = none) := by
  constructor
  · have h := (nfc_missed_poll_grace_window sample_uid 0 (1 / 2) (fun _ => none)).1
      (by norm_num [NFC_GRACE_SEC])
    exact ⟨by norm_num [NFC_GRACE_SEC], h.1, h.2⟩
  · have h := (nfc_missed_poll_grace_window sample_uid 0 2 (fun _ => none)).2
      (by norm_num [NFC_GRACE_SEC])
    exact ⟨by norm_num [NFC_GRACE_SEC], h.1, h.2⟩

end Spinify
